import Mathlib

/-
Verification of the quiz-bot core (src/bot.py): the generation-with-fallback
contract of generate_problem, the /problem command handler, and the
check_answer handler, together with the per-user session and score maps.

Modelling conventions:
* Python strings are modelled as List Char (`Chars`); `.strip()` is `pyStrip`
  (ASCII whitespace), `.upper()` is `pyUpper` (ASCII case map), and
  `.replace(pat, "")` is `pyReplaceDel` (left-to-right non-overlapping
  removal of every occurrence, exactly as in CPython for non-empty patterns).
* The value returned by `json.loads` is modelled by the inductive `Json`;
  `json_loads` is a fuel-based parser for the JSON accepted by Python's
  `json.loads` (objects, arrays, strings with escapes, numbers kept as their
  lexeme, true/false/null and the NaN/Infinity extensions).  Python dicts are
  insertion-ordered association lists; inserting an existing key updates the
  value in place, as in CPython.
* The external completion-service call either raises or returns a text
  (`GenResponse`).  An unhandled Python exception inside a handler is
  modelled by returning, at the point of the raise, the state mutated so far
  and no reply.
* The two telegram handlers become pure functions `problemStep` and
  `answerStep` from a `BotState` (the `user_sessions` / `user_scores`
  globals) to a `StepOut` which also records the emitted replies and whether
  the generation service was invoked.
-/

namespace PlurBot

abbrev Chars := List Char

/-- The backquote character, written numerically. -/
def backquoteChar : Char := Char.ofNat 96

def txt (s : String) : Chars := s.data

/-- Python `str.strip()` whitespace test (ASCII part). -/
def pyWS (c : Char) : Bool :=
  (c == ' ') || (c == '\t') || (c == '\n') || (c == '\r') || (c == '\x0b') || (c == '\x0c')

/-- Python `str.strip()`: drop leading and trailing whitespace. -/
def pyStrip (s : Chars) : Chars :=
  (((s.dropWhile pyWS).reverse.dropWhile pyWS)).reverse

/-- Python `str.upper()` (ASCII case map). -/
def pyUpper (s : Chars) : Chars := s.map Char.toUpper

/-- Does `pat` occur at the head of `s`? -/
def startsWithL : Chars → Chars → Bool
  | [], _ => true
  | _ :: _, [] => false
  | p :: ps, c :: cs => p == c && startsWithL ps cs

/-- Worker for `pyReplaceDel`: scan `s`; while `skip > 0` we are inside an
already-matched occurrence and drop characters. -/
def repAux (pat : Chars) : Chars → Nat → Chars
  | [], _ => []
  | _ :: cs, skip + 1 => repAux pat cs skip
  | c :: cs, 0 =>
    if startsWithL pat (c :: cs) then repAux pat cs (pat.length - 1)
    else c :: repAux pat cs 0

/-- Python `s.replace(pat, "")` for a non-empty `pat`. -/
def pyReplaceDel (pat s : Chars) : Chars := repAux pat s 0

/-- Python `in` for a substring test (`key in someString`). -/
def substrL (pat : Chars) : Chars → Bool
  | [] => startsWithL pat []
  | c :: cs => startsWithL pat (c :: cs) || substrL pat cs

/-- Decimal rendering of a natural number (Python f-string of an int). -/
def natCharsAux : Nat → Nat → Chars
  | 0, _ => []
  | f + 1, n =>
    if n < 10 then [Char.ofNat (48 + n)]
    else natCharsAux f (n / 10) ++ [Char.ofNat (48 + n % 10)]

def natChars (n : Nat) : Chars := natCharsAux (n + 1) n

/-- The value produced by Python's `json.loads`.  Numbers keep their source
lexeme (their numeric value is irrelevant to every property below). -/
inductive Json where
  | str (s : Chars)
  | num (lexeme : Chars)
  | bool (b : Bool)
  | null
  | arr (elems : List Json)
  | obj (fields : List (Chars × Json))

/-- Association-list lookup (Python `d[k]` / `k in d` on dicts). -/
def alist_get {κ α : Type} [DecidableEq κ] : List (κ × α) → κ → Option α
  | [], _ => none
  | (k, v) :: r, q => if k = q then some v else alist_get r q

/-- Association-list insert: Python `d[k] = v` (update in place, else append). -/
def alist_put {κ α : Type} [DecidableEq κ] : List (κ × α) → κ → α → List (κ × α)
  | [], q, w => [(q, w)]
  | (k, v) :: r, q, w => if k = q then (q, w) :: r else (k, v) :: alist_put r q w

/-- Association-list delete: Python `del d[k]`. -/
def alist_del {κ α : Type} [DecidableEq κ] : List (κ × α) → κ → List (κ × α)
  | [], _ => []
  | (k, v) :: r, q => if k = q then r else (k, v) :: alist_del r q

/-! ### A model of Python's `json.loads` -/

/-- JSON inter-token whitespace. -/
def jsonWS (c : Char) : Bool := (c == ' ') || (c == '\t') || (c == '\n') || (c == '\r')

def skipWS (s : Chars) : Chars := s.dropWhile jsonWS

def hexVal (c : Char) : Option Nat :=
  if '0' ≤ c ∧ c ≤ '9' then some (c.toNat - 48)
  else if 'a' ≤ c ∧ c ≤ 'f' then some (c.toNat - 87)
  else if 'A' ≤ c ∧ c ≤ 'F' then some (c.toNat - 55)
  else none

/-- Body of a JSON string after the opening quote: returns the decoded
characters and the remainder after the closing quote. -/
def jstringBody : Chars → Option (Chars × Chars)
  | [] => none
  | '"' :: rest => some ([], rest)
  | '\\' :: 'u' :: a :: b :: c :: d :: rest =>
    match hexVal a, hexVal b, hexVal c, hexVal d with
    | some ha, some hb, some hc, some hd =>
      match jstringBody rest with
      | some (s, r) => some (Char.ofNat (((ha * 16 + hb) * 16 + hc) * 16 + hd) :: s, r)
      | none => none
    | _, _, _, _ => none
  | '\\' :: e :: rest =>
    match
      (match e with
       | '"' => some '"'
       | '\\' => some '\\'
       | '/' => some '/'
       | 'b' => some '\x08'
       | 'f' => some '\x0c'
       | 'n' => some '\n'
       | 'r' => some '\r'
       | 't' => some '\t'
       | _ => none)
    with
    | some ch =>
      match jstringBody rest with
      | some (s, r) => some (ch :: s, r)
      | none => none
    | none => none
  | c :: rest =>
    if c.toNat < 32 then none
    else
      match jstringBody rest with
      | some (s, r) => some (c :: s, r)
      | none => none

def spanDigits (s : Chars) : Chars × Chars :=
  (s.takeWhile Char.isDigit, s.dropWhile Char.isDigit)

/-- Integer part of a JSON number: `0` or a nonzero digit followed by digits. -/
def jintPart : Chars → Option (Chars × Chars)
  | '0' :: r => some (['0'], r)
  | c :: r =>
    if c.isDigit then
      let p := spanDigits (c :: r)
      some (p.1, p.2)
    else none
  | [] => none

/-- Optional fraction part `.digits`; consumes nothing if absent/incomplete. -/
def jfracPart (s : Chars) : Chars × Chars :=
  match s with
  | '.' :: r =>
    let p := spanDigits r
    if p.1.isEmpty then ([], s) else ('.' :: p.1, p.2)
  | _ => ([], s)

/-- Optional exponent part; consumes nothing if absent/incomplete. -/
def jexpPart (s : Chars) : Chars × Chars :=
  match s with
  | e :: r =>
    if e == 'e' || e == 'E' then
      match r with
      | sg :: r2 =>
        if sg == '+' || sg == '-' then
          let p := spanDigits r2
          if p.1.isEmpty then ([], s) else (e :: sg :: p.1, p.2)
        else
          let p := spanDigits r
          if p.1.isEmpty then ([], s) else (e :: p.1, p.2)
      | [] => ([], s)
    else ([], s)
  | [] => ([], s)

/-- Lexeme of a JSON number starting at `s` (after handling `-Infinity`). -/
def jnumber (s : Chars) : Option (Chars × Chars) :=
  match s with
  | '-' :: r =>
    match jintPart r with
    | some (ip, r2) =>
      let f := jfracPart r2
      let e := jexpPart f.2
      some ('-' :: ip ++ f.1 ++ e.1, e.2)
    | none => none
  | _ =>
    match jintPart s with
    | some (ip, r2) =>
      let f := jfracPart r2
      let e := jexpPart f.2
      some (ip ++ f.1 ++ e.1, e.2)
    | none => none

/-- Parser mode: a plain value, the tail of an array, or the members of an
object (each carrying what has been accumulated so far). -/
inductive PMode where
  | val
  | arrElem (acc : List Json)
  | objKey (acc : List (Chars × Json))

/-- Fuel-driven recursive-descent parser for `json.loads`. -/
def jstep : Nat → PMode → Chars → Option (Json × Chars)
  | 0, _, _ => none
  | n + 1, PMode.val, s =>
    match skipWS s with
    | [] => none
    | '\x7b' :: r =>
      (match skipWS r with
       | '\x7d' :: r2 => some (Json.obj [], r2)
       | _ => jstep n (PMode.objKey []) r)
    | '[' :: r =>
      (match skipWS r with
       | ']' :: r2 => some (Json.arr [], r2)
       | _ => jstep n (PMode.arrElem []) r)
    | '"' :: r =>
      (match jstringBody r with
       | some (str, r2) => some (Json.str str, r2)
       | none => none)
    | 't' :: r =>
      if startsWithL (txt "rue") r then some (Json.bool true, r.drop 3) else none
    | 'f' :: r =>
      if startsWithL (txt "alse") r then some (Json.bool false, r.drop 4) else none
    | 'n' :: r =>
      if startsWithL (txt "ull") r then some (Json.null, r.drop 3) else none
    | 'N' :: r =>
      if startsWithL (txt "aN") r then some (Json.num (txt "NaN"), r.drop 2) else none
    | 'I' :: r =>
      if startsWithL (txt "nfinity") r then some (Json.num (txt "Infinity"), r.drop 7)
      else none
    | '-' :: r =>
      if startsWithL (txt "Infinity") r then some (Json.num (txt "-Infinity"), r.drop 8)
      else
        (match jnumber ('-' :: r) with
         | some (lx, r2) => some (Json.num lx, r2)
         | none => none)
    | c :: r =>
      (match jnumber (c :: r) with
       | some (lx, r2) => some (Json.num lx, r2)
       | none => none)
  | n + 1, PMode.arrElem acc, s =>
    match jstep n PMode.val s with
    | some (v, r) =>
      (match skipWS r with
       | ',' :: r2 => jstep n (PMode.arrElem (acc ++ [v])) r2
       | ']' :: r2 => some (Json.arr (acc ++ [v]), r2)
       | _ => none)
    | none => none
  | n + 1, PMode.objKey acc, s =>
    match skipWS s with
    | '"' :: r =>
      (match jstringBody r with
       | some (k, r2) =>
         (match skipWS r2 with
          | ':' :: r3 =>
            (match jstep n PMode.val r3 with
             | some (v, r4) =>
               (match skipWS r4 with
                | ',' :: r5 => jstep n (PMode.objKey (alist_put acc k v)) r5
                | '\x7d' :: r5 => some (Json.obj (alist_put acc k v), r5)
                | _ => none)
             | none => none)
          | _ => none)
       | none => none)
    | _ => none

/-- Model of Python `json.loads`: parse one value, require only whitespace
after it; `none` models a raised `JSONDecodeError`. -/
def json_loads (s : Chars) : Option Json :=
  match jstep (2 * s.length + 8) PMode.val s with
  | some (v, r) => if skipWS r = [] then some v else none
  | none => none

/-! ### generate_problem (bot.py lines 71-128) -/

/-- Outcome of the external completion-service call (`model.generate_content`
plus the `.text` access): it raises, or yields a raw response text. -/
inductive GenResponse where
  | raises
  | returns (text : Chars)

/-- Line 103: `text.replace("```json", "").replace("```", "")` bracketed by
the two `.strip()` calls of lines 102-103. -/
def cleanText (t : Chars) : Chars :=
  pyStrip (pyReplaceDel (txt "```") (pyReplaceDel (txt "```json") (pyStrip t)))

def qKey : Chars := txt "question"
def cKey : Chars := txt "choices"
def caKey : Chars := txt "correct_answer"
def exKey : Chars := txt "explanation"

/-- Line 108: `required_keys`. -/
def requiredKeys : List Chars := [qKey, cKey, caKey, exKey]

/-- Python `key in data` for an arbitrary `json.loads` result: key lookup on
dicts, substring test on strings, element equality on lists; `none` models
the `TypeError` raised on the other types. -/
def pyContains (j : Json) (k : Chars) : Option Bool :=
  match j with
  | Json.obj d => some (alist_get d k).isSome
  | Json.str s => some (substrL k s)
  | Json.arr xs => some (xs.any (fun x => match x with | Json.str s => s == k | _ => false))
  | _ => none

/-- Line 109: `all(key in data for key in required_keys)`, with Python's
left-to-right short-circuit evaluation (`none` = a raised `TypeError`). -/
def allKeysIn : List Chars → Json → Option Bool
  | [], _ => some true
  | k :: ks, j =>
    match pyContains j k with
    | none => none
    | some false => some false
    | some true => allKeysIn ks j

/-- Lines 118-128: the fixed fallback item. -/
def fallbackJson : Json :=
  Json.obj
    [(qKey, Json.str (txt "If 2x + 3 = 11, what is x?")),
     (cKey, Json.obj
        [(txt "A", Json.str (txt "3")),
         (txt "B", Json.str (txt "4")),
         (txt "C", Json.str (txt "5")),
         (txt "D", Json.str (txt "6"))]),
     (caKey, Json.str (txt "B")),
     (exKey, Json.str (txt "2x + 3 = 11 → 2x = 8 → x = 4"))]

/-- Lines 107-112: the structure check on the parsed value.  A `TypeError`
inside the generator expression (`none`) or the explicit `ValueError` on a
missing key (`some false`) lands in the `except` clause, which returns the
fallback item. -/
def checkKeys (d : Json) : Json :=
  match allKeysIn requiredKeys d with
  | some true => d
  | _ => fallbackJson

/-- Lines 71-128: `generate_problem`.  Any exception on the way (the call
raising, `json.loads` failing, or a failure of the structure check) yields
the fallback item. -/
def generate_problem : GenResponse → Json
  | GenResponse.raises => fallbackJson
  | GenResponse.returns t =>
    match json_loads (cleanText t) with
    | none => fallbackJson
    | some d => checkKeys d

/-! ### Rendering of parsed values in f-strings -/

mutual

/-- Python `repr` of a `json.loads` value (single-quote string rendering
approximated without escape handling; no property below depends on the
container cases). -/
def pyRepr : Json → Chars
  | Json.str s => '\x27' :: s ++ ['\x27']
  | Json.num l => l
  | Json.bool true => txt "True"
  | Json.bool false => txt "False"
  | Json.null => txt "None"
  | Json.arr xs => '[' :: pyReprElems xs ++ [']']
  | Json.obj fs => '\x7b' :: pyReprFields fs ++ ['\x7d']

def pyReprElems : List Json → Chars
  | [] => []
  | [x] => pyRepr x
  | x :: y :: r => pyRepr x ++ txt ", " ++ pyReprElems (y :: r)

def pyReprFields : List (Chars × Json) → Chars
  | [] => []
  | [kv] => '\x27' :: kv.1 ++ '\x27' :: ':' :: ' ' :: pyRepr kv.2
  | kv :: kw :: r =>
    '\x27' :: kv.1 ++ '\x27' :: ':' :: ' ' :: pyRepr kv.2 ++ txt ", " ++ pyReprFields (kw :: r)

end

/-- Python `str()` of a `json.loads` value, as used by f-string interpolation. -/
def pyStr (j : Json) : Chars :=
  match j with
  | Json.str s => s
  | Json.num l => l
  | Json.bool true => txt "True"
  | Json.bool false => txt "False"
  | Json.null => txt "None"
  | Json.arr xs => pyRepr (Json.arr xs)
  | Json.obj fs => pyRepr (Json.obj fs)

/-! ### State: the two global dicts (lines 52-53) -/

structure Score where
  correct : Nat
  total : Nat
deriving DecidableEq

/-- The global mutable state: `user_sessions` and `user_scores`. -/
structure BotState where
  sessions : List (Nat × Json)
  scores : List (Nat × Score)

def state0 : BotState := ⟨[], []⟩

/-- Result of handling one trigger: the new state, the replies sent, and
whether `generate_problem` (the external service) was invoked. -/
structure StepOut where
  state : BotState
  replies : List Chars
  genCalled : Bool

/-- Python `data[k]` on a `json.loads` value: `none` models the raised
`KeyError` (missing key) or `TypeError` (non-dict). -/
def jGetItem (j : Json) (k : Chars) : Option Json :=
  match j with
  | Json.obj d => alist_get d k
  | _ => none

/-! ### The /problem handler (lines 134-162) -/

def conflictReply : Chars := txt "You already have a question. Answer it first!"

/-- Lines 156-158: one line per choice, in the dict's iteration
(= insertion) order. -/
def choiceLines : List (Chars × Json) → Chars
  | [] => []
  | kv :: r => kv.1 ++ txt ") " ++ pyStr kv.2 ++ txt "\n" ++ choiceLines r

/-- Lines 153-160: build the question reply.  `none` models an exception
(`KeyError` on a missing key, or `.items()` failing on a non-dict). -/
def formatQuestion (data : Json) : Option Chars :=
  match data with
  | Json.obj d =>
    (match alist_get d qKey with
     | none => none
     | some qv =>
       (match alist_get d cKey with
        | some (Json.obj cs) =>
          some (pyStr qv ++ txt "\n\n" ++ choiceLines cs ++ txt "\n📝 Reply with A, B, C, or D.")
        | _ => none))
  | _ => none

/-- Lines 134-162: the `/problem` command handler.  When formatting raises,
the session has already been stored (line 151) but no reply is sent. -/
def problemStep (st : BotState) (uid : Nat) (resp : GenResponse) : StepOut :=
  match alist_get st.sessions uid with
  | some _ => ⟨st, [conflictReply], false⟩
  | none =>
    match formatQuestion (generate_problem resp) with
    | some msg =>
      ⟨⟨alist_put st.sessions uid (generate_problem resp), st.scores⟩, [msg], true⟩
    | none =>
      ⟨⟨alist_put st.sessions uid (generate_problem resp), st.scores⟩, [], true⟩

/-! ### The answer handler (lines 168-208) -/

def fmtCorrectionReply : Chars := txt "Please reply with A, B, C, or D."

def lettersABCD : List Chars := [txt "A", txt "B", txt "C", txt "D"]

/-- Python `user_answer == correct` where `user_answer` is a `str`. -/
def jsonEqChars (j : Json) (s : Chars) : Bool :=
  match j with
  | Json.str t => t == s
  | _ => false

/-- Line 189-190 default record, read back for updating. -/
def scoreOrZero (st : BotState) (uid : Nat) : Score :=
  (alist_get st.scores uid).getD ⟨0, 0⟩

/-- Lines 185-208 once the answer is a valid letter: read
`data["correct_answer"]` (already done by the caller), update the score,
build the reply (line 200 raises `KeyError`/`TypeError` when `explanation`
is missing or not a string — scores are already mutated then, the session
stays and no reply is sent), send it, and clear the session. -/
def gradeAnswer (st : BotState) (uid : Nat) (ua : Chars) (data correct : Json) : StepOut :=
  match jGetItem data exKey with
  | some (Json.str ex) =>
    ⟨⟨alist_del st.sessions uid,
      alist_put st.scores uid
        ⟨(scoreOrZero st uid).correct + (if jsonEqChars correct ua then 1 else 0),
         (scoreOrZero st uid).total + 1⟩⟩,
     [(if jsonEqChars correct ua then txt "✅ Correct!\n\n"
       else txt "❌ Incorrect.\nCorrect answer: " ++ pyStr correct ++ txt "\n\n")
        ++ txt "Explanation:\n" ++ ex
        ++ txt "\n\n📊 Your Score: "
        ++ natChars ((scoreOrZero st uid).correct + (if jsonEqChars correct ua then 1 else 0))
        ++ txt "/" ++ natChars ((scoreOrZero st uid).total + 1)],
     false⟩
  | _ =>
    ⟨⟨st.sessions,
      alist_put st.scores uid
        ⟨(scoreOrZero st uid).correct + (if jsonEqChars correct ua then 1 else 0),
         (scoreOrZero st uid).total + 1⟩⟩, [], false⟩

/-- Lines 168-208: the plain-text message handler `check_answer`.
`data["correct_answer"]` (line 186) raising on a non-dict session value
aborts the handler with nothing mutated. -/
def answerStep (st : BotState) (uid : Nat) (text : Chars) : StepOut :=
  match alist_get st.sessions uid with
  | none => ⟨st, [], false⟩
  | some data =>
    if pyUpper (pyStrip text) ∈ lettersABCD then
      match jGetItem data caKey with
      | none => ⟨st, [], false⟩
      | some correct => gradeAnswer st uid (pyUpper (pyStrip text)) data correct
    else ⟨st, [fmtCorrectionReply], false⟩

/-! ### Trigger sequences -/

inductive Trigger where
  | newQ (uid : Nat) (resp : GenResponse)
  | ans (uid : Nat) (text : Chars)

def stepT (st : BotState) : Trigger → StepOut
  | Trigger.newQ u r => problemStep st u r
  | Trigger.ans u t => answerStep st u t

def runT (st : BotState) : List Trigger → BotState
  | [] => st
  | tr :: ts => runT (stepT st tr).state ts

/-- Spec-side predicate (data model, spec §3), used only to compare the
code's behaviour with the spec's words: a fully well-formed QuizItem has a
non-empty question, choices with labels exactly the set A, B, C, D each
present exactly once, a correct_answer that is one of A-D and a key of
choices, and a non-empty explanation. -/
def specFullShapeValid (j : Json) : Bool :=
  match j with
  | Json.obj d =>
    (match alist_get d qKey with
     | some (Json.str q) => !q.isEmpty
     | _ => false) &&
    (match alist_get d cKey with
     | some (Json.obj cs) =>
       cs.length == 4 && lettersABCD.all (fun l => (alist_get cs l).isSome)
     | _ => false) &&
    (match alist_get d caKey, alist_get d cKey with
     | some (Json.str ca), some (Json.obj cs) =>
       lettersABCD.contains ca && (alist_get cs ca).isSome
     | _, _ => false) &&
    (match alist_get d exKey with
     | some (Json.str e) => !e.isEmpty
     | _ => false)
  | _ => false

/-! ### Association-list lemmas -/

theorem alist_get_put_self {κ α : Type} [DecidableEq κ] (l : List (κ × α)) (k : κ) (v : α) :
    alist_get (alist_put l k v) k = some v := by
  induction l with
  | nil => simp [alist_put, alist_get]
  | cons kv r ih =>
    obtain ⟨k', v'⟩ := kv
    by_cases hk : k' = k
    · subst hk; simp [alist_put, alist_get]
    · simp [alist_put, alist_get, hk, ih]

theorem alist_get_put_other {κ α : Type} [DecidableEq κ] (l : List (κ × α)) (k q : κ) (v : α)
    (h : q ≠ k) : alist_get (alist_put l k v) q = alist_get l q := by
  have hkq : ¬ k = q := fun he => h he.symm
  induction l with
  | nil => simp [alist_put, alist_get, hkq]
  | cons kv r ih =>
    obtain ⟨k', v'⟩ := kv
    by_cases hk : k' = k
    · subst hk; simp [alist_put, alist_get, hkq]
    · by_cases hq : k' = q <;> simp [alist_put, alist_get, hk, hq, ih, h]

/-! ### Frame lemmas for the handlers -/

theorem problemStep_scores (st : BotState) (uid : Nat) (resp : GenResponse) :
    (problemStep st uid resp).state.scores = st.scores := by
  unfold problemStep
  split
  · rfl
  · split <;> rfl

theorem answerStep_scores_shape (st : BotState) (uid : Nat) (text : Chars) :
    (answerStep st uid text).state.scores = st.scores ∨
    ∃ b : Bool, (answerStep st uid text).state.scores =
      alist_put st.scores uid
        ⟨(scoreOrZero st uid).correct + (if b then 1 else 0), (scoreOrZero st uid).total + 1⟩ := by
  unfold answerStep
  split
  · left; rfl
  · split
    · split
      · left; rfl
      · unfold gradeAnswer
        split
        · right; exact ⟨_, rfl⟩
        · right; exact ⟨_, rfl⟩
    · left; rfl

theorem stepT_score_mono (st : BotState) (tr : Trigger) (uid : Nat) :
    (scoreOrZero st uid).correct ≤ (scoreOrZero (stepT st tr).state uid).correct ∧
    (scoreOrZero st uid).total ≤ (scoreOrZero (stepT st tr).state uid).total ∧
    ((scoreOrZero st uid).correct ≤ (scoreOrZero st uid).total →
      (scoreOrZero (stepT st tr).state uid).correct ≤ (scoreOrZero (stepT st tr).state uid).total) := by
  cases tr with
  | newQ u r =>
    have h : scoreOrZero (stepT st (Trigger.newQ u r)).state uid = scoreOrZero st uid := by
      unfold scoreOrZero
      rw [show (stepT st (Trigger.newQ u r)).state.scores = st.scores from problemStep_scores st u r]
    rw [h]
    exact ⟨le_rfl, le_rfl, id⟩
  | ans u text =>
    rcases answerStep_scores_shape st u text with h | ⟨b, h⟩
    · have h2 : scoreOrZero (stepT st (Trigger.ans u text)).state uid = scoreOrZero st uid := by
        unfold scoreOrZero
        rw [show (stepT st (Trigger.ans u text)).state.scores = st.scores from h]
      rw [h2]
      exact ⟨le_rfl, le_rfl, id⟩
    · by_cases huv : uid = u
      · subst huv
        have hnew : scoreOrZero (stepT st (Trigger.ans uid text)).state uid =
            ⟨(scoreOrZero st uid).correct + (if b then 1 else 0), (scoreOrZero st uid).total + 1⟩ := by
          unfold scoreOrZero
          rw [show (stepT st (Trigger.ans uid text)).state.scores =
                alist_put st.scores uid
                  ⟨(scoreOrZero st uid).correct + (if b then 1 else 0),
                   (scoreOrZero st uid).total + 1⟩ from h,
              alist_get_put_self]
          rfl
        rw [hnew]
        refine ⟨Nat.le_add_right _ _, Nat.le_add_right _ _, fun hle => ?_⟩
        have hb : (if b then 1 else 0) ≤ 1 := by cases b <;> simp
        simp only [] at hle ⊢
        omega
      · have h2 : scoreOrZero (stepT st (Trigger.ans u text)).state uid = scoreOrZero st uid := by
          unfold scoreOrZero
          rw [show (stepT st (Trigger.ans u text)).state.scores =
                alist_put st.scores u
                  ⟨(scoreOrZero st u).correct + (if b then 1 else 0),
                   (scoreOrZero st u).total + 1⟩ from h,
              alist_get_put_other _ _ _ _ huv]
        rw [h2]
        exact ⟨le_rfl, le_rfl, id⟩

theorem runT_score_mono (ts : List Trigger) : ∀ (st : BotState) (uid : Nat),
    (scoreOrZero st uid).correct ≤ (scoreOrZero (runT st ts) uid).correct ∧
    (scoreOrZero st uid).total ≤ (scoreOrZero (runT st ts) uid).total := by
  induction ts with
  | nil => exact fun st uid => ⟨le_rfl, le_rfl⟩
  | cons tr ts ih =>
    intro st uid
    have h1 := stepT_score_mono st tr uid
    have h2 := ih (stepT st tr).state uid
    exact ⟨h1.1.trans h2.1, h1.2.1.trans h2.2⟩

/-! ### Shared concrete states for witnesses -/

/-- A state in which user 7 has the fallback question open and no scores. -/
def st1 : BotState := ⟨[(7, fallbackJson)], []⟩

/-! ### Claim C2 -/

/-- C2 (confirmed): on every failure of the generation path — the external
call raises, the cleaned text fails to parse as JSON, or the required-key
check does not succeed — generate_problem returns exactly the fixed fallback
item: question "If 2x + 3 = 11, what is x?", choices A=3, B=4, C=5, D=6,
correct answer "B", explanation "2x + 3 = 11 → 2x = 8 → x = 4"; being a pure
function of the response, it is identical on every invocation regardless of
which failure occurred. -/
theorem C2_fallback_deterministic : ∀ r : GenResponse,
    (r = GenResponse.raises
      ∨ (∃ t, r = GenResponse.returns t ∧ json_loads (cleanText t) = none)
      ∨ (∃ t j, r = GenResponse.returns t ∧ json_loads (cleanText t) = some j ∧
          allKeysIn requiredKeys j ≠ some true)) →
    generate_problem r =
      Json.obj
        [(txt "question", Json.str (txt "If 2x + 3 = 11, what is x?")),
         (txt "choices", Json.obj
            [(txt "A", Json.str (txt "3")), (txt "B", Json.str (txt "4")),
             (txt "C", Json.str (txt "5")), (txt "D", Json.str (txt "6"))]),
         (txt "correct_answer", Json.str (txt "B")),
         (txt "explanation", Json.str (txt "2x + 3 = 11 → 2x = 8 → x = 4"))] := by
  intro r h
  rcases h with h | ⟨t, rfl, hp⟩ | ⟨t, j, rfl, hp, hk⟩
  · subst h; rfl
  · simp only [generate_problem]
    rw [hp]
    rfl
  · simp only [generate_problem]
    rw [hp]
    show checkKeys j = _
    simp only [checkKeys]
    cases hj : allKeysIn requiredKeys j with
    | none => rfl
    | some b =>
      cases b with
      | false => rfl
      | true => exact absurd hj hk

/-- C2 witness: the raising service call yields the fallback item. -/
theorem C2_witness :
    (GenResponse.raises = GenResponse.raises
      ∨ (∃ t, GenResponse.raises = GenResponse.returns t ∧ json_loads (cleanText t) = none)
      ∨ (∃ t j, GenResponse.raises = GenResponse.returns t ∧ json_loads (cleanText t) = some j ∧
          allKeysIn requiredKeys j ≠ some true))
    ∧ generate_problem GenResponse.raises =
      Json.obj
        [(txt "question", Json.str (txt "If 2x + 3 = 11, what is x?")),
         (txt "choices", Json.obj
            [(txt "A", Json.str (txt "3")), (txt "B", Json.str (txt "4")),
             (txt "C", Json.str (txt "5")), (txt "D", Json.str (txt "6"))]),
         (txt "correct_answer", Json.str (txt "B")),
         (txt "explanation", Json.str (txt "2x + 3 = 11 → 2x = 8 → x = 4"))] :=
  ⟨Or.inl rfl, C2_fallback_deterministic GenResponse.raises (Or.inl rfl)⟩

/-! ### Claim C3 -/

/-- C3 (confirmed): a "new question" trigger for a user who already has an
open question produces exactly the informational conflict reply, leaves the
whole state (session map, stored item and score map) unchanged, and does not
invoke the generation service. -/
theorem C3_conflict_no_change (st : BotState) (uid : Nat) (item : Json) (resp : GenResponse)
    (h : alist_get st.sessions uid = some item) :
    (problemStep st uid resp).state = st ∧
    (problemStep st uid resp).replies = [conflictReply] ∧
    (problemStep st uid resp).genCalled = false := by
  unfold problemStep
  rw [h]
  exact ⟨rfl, rfl, rfl⟩

/-- C3 witness: user 7 has the fallback question open; a second request is
refused without any state change or generation call. -/
theorem C3_witness :
    alist_get st1.sessions 7 = some fallbackJson
    ∧ ((problemStep st1 7 GenResponse.raises).state = st1 ∧
       (problemStep st1 7 GenResponse.raises).replies = [conflictReply] ∧
       (problemStep st1 7 GenResponse.raises).genCalled = false) :=
  ⟨rfl, C3_conflict_no_change st1 7 fallbackJson GenResponse.raises rfl⟩

/-! ### Claim C5 -/

/-- C5 (confirmed): with a question open, a submission whose normalization is
not one of A, B, C, D yields exactly the format-correction reply and changes
nothing — and repeating it any number of times leaves the state fixed. -/
theorem C5_malformed_selfloop (st : BotState) (uid : Nat) (text : Chars) (data : Json)
    (h1 : alist_get st.sessions uid = some data)
    (h2 : pyUpper (pyStrip text) ∉ lettersABCD) :
    answerStep st uid text = ⟨st, [fmtCorrectionReply], false⟩ ∧
    ∀ n, runT st (List.replicate n (Trigger.ans uid text)) = st := by
  have hstep : answerStep st uid text = ⟨st, [fmtCorrectionReply], false⟩ := by
    unfold answerStep
    rw [h1]
    exact if_neg h2
  refine ⟨hstep, ?_⟩
  intro n
  induction n with
  | zero => rfl
  | succ k ih =>
    have hst : (stepT st (Trigger.ans uid text)).state = st := by
      show (answerStep st uid text).state = st
      rw [hstep]
    rw [List.replicate_succ]
    show runT (stepT st (Trigger.ans uid text)).state (List.replicate k (Trigger.ans uid text)) = st
    rw [hst, ih]

/-- C5 witness: submitting "E" (three times, say) with the fallback question
open replies with the correction message and never changes the state. -/
theorem C5_witness :
    alist_get st1.sessions 7 = some fallbackJson
    ∧ pyUpper (pyStrip (txt "E")) ∉ lettersABCD
    ∧ answerStep st1 7 (txt "E") = ⟨st1, [fmtCorrectionReply], false⟩
    ∧ runT st1 (List.replicate 3 (Trigger.ans 7 (txt "E"))) = st1 :=
  ⟨rfl, by decide,
   (C5_malformed_selfloop st1 7 (txt "E") fallbackJson rfl (by decide)).1,
   (C5_malformed_selfloop st1 7 (txt "E") fallbackJson rfl (by decide)).2 3⟩

/-! ### Claim C8 -/

/-- C8 (confirmed): the answer handler depends on the submitted text only
through trim-then-uppercase normalization, so any two texts with equal
normalizations produce identical outcomes (same grading, same score update,
same replies, same resulting state). -/
theorem C8_normalization_invariance (st : BotState) (uid : Nat) (t1 t2 : Chars)
    (h : pyUpper (pyStrip t1) = pyUpper (pyStrip t2)) :
    answerStep st uid t1 = answerStep st uid t2 := by
  unfold answerStep
  rw [h]

/-- C8 witness: " b ", "b" and "B" are interchangeable for the answer
handler. -/
theorem C8_witness :
    pyUpper (pyStrip (txt " b ")) = pyUpper (pyStrip (txt "B"))
    ∧ answerStep st1 7 (txt " b ") = answerStep st1 7 (txt "B")
    ∧ answerStep st1 7 (txt "b") = answerStep st1 7 (txt "B") :=
  ⟨by decide,
   C8_normalization_invariance st1 7 (txt " b ") (txt "B") (by decide),
   C8_normalization_invariance st1 7 (txt "b") (txt "B") (by decide)⟩

/-! ### Claim C9 -/

/-- C9 (confirmed): a plain-text message from a user with no open question is
a complete no-op: no reply, no state change, no generation call. -/
theorem C9_idle_answer_noop (st : BotState) (uid : Nat) (text : Chars)
    (h : alist_get st.sessions uid = none) :
    answerStep st uid text = ⟨st, [], false⟩ := by
  unfold answerStep
  rw [h]

/-- C9 witness: with empty state, an arbitrary text message does nothing. -/
theorem C9_witness :
    alist_get state0.sessions 5 = none
    ∧ answerStep state0 5 (txt "hello there") = ⟨state0, [], false⟩ :=
  ⟨rfl, C9_idle_answer_noop state0 5 (txt "hello there") rfl⟩

/-! ### Claim C4 -/

/-- C4 (corrected, amended): provided the stored session value is one from
which `correct_answer` can be read (a dict — true of every dict the code
stores, since they passed the key check), a graded answer creates the score
record as 0/0 if absent and updates it to exactly
(correct + 1 iff the normalized answer equals the stored correct_answer,
total + 1); moreover per-user correct and total are monotonically
non-decreasing under every trigger and over every trigger sequence, and
correct ≤ total is preserved by every trigger.  (The un-amended claim fails
when the stored session value is a non-dict, which is reachable; see the
counterexample.) -/
theorem C4_amended :
    (∀ (st : BotState) (uid : Nat) (text : Chars) (data c : Json),
      alist_get st.sessions uid = some data →
      jGetItem data caKey = some c →
      pyUpper (pyStrip text) ∈ lettersABCD →
      (answerStep st uid text).state.scores =
        alist_put st.scores uid
          ⟨(scoreOrZero st uid).correct +
             (if jsonEqChars c (pyUpper (pyStrip text)) then 1 else 0),
           (scoreOrZero st uid).total + 1⟩)
    ∧ (∀ (st : BotState) (tr : Trigger) (uid : Nat),
        (scoreOrZero st uid).correct ≤ (scoreOrZero (stepT st tr).state uid).correct ∧
        (scoreOrZero st uid).total ≤ (scoreOrZero (stepT st tr).state uid).total ∧
        ((scoreOrZero st uid).correct ≤ (scoreOrZero st uid).total →
          (scoreOrZero (stepT st tr).state uid).correct ≤ (scoreOrZero (stepT st tr).state uid).total))
    ∧ (∀ (ts : List Trigger) (st : BotState) (uid : Nat),
        (scoreOrZero st uid).correct ≤ (scoreOrZero (runT st ts) uid).correct ∧
        (scoreOrZero st uid).total ≤ (scoreOrZero (runT st ts) uid).total) := by
  refine ⟨?_, fun st tr uid => stepT_score_mono st tr uid,
          fun ts st uid => runT_score_mono ts st uid⟩
  intro st uid text data c h1 h2 h3
  simp only [answerStep, h1]
  rw [if_pos h3]
  simp only [h2]
  unfold gradeAnswer
  split
  · rfl
  · rfl

/-- C4 witness: grading "b" against the open fallback question (correct
answer "B") creates the record and sets it to 1/1. -/
theorem C4_witness :
    alist_get st1.sessions 7 = some fallbackJson
    ∧ jGetItem fallbackJson caKey = some (Json.str (txt "B"))
    ∧ pyUpper (pyStrip (txt "b")) ∈ lettersABCD
    ∧ (answerStep st1 7 (txt "b")).state.scores = [(7, ⟨1, 1⟩)] :=
  ⟨rfl, rfl, by decide,
   C4_amended.1 st1 7 (txt "b") fallbackJson (Json.str (txt "B")) rfl rfl (by decide)⟩

/-- The completion service returning a bare JSON string that merely contains
the four key names as substrings. -/
def strayText : Chars := txt "\"question choices correct_answer explanation\""

def strayContent : Chars := txt "question choices correct_answer explanation"

/-- The reachable state after a "new question" trigger with that response:
the session value is a string, not a dict. -/
def stX : BotState := (problemStep state0 7 (GenResponse.returns strayText)).state

/-- C4 counterexample: `all(key in data ...)` is a substring test on strings,
so the stray response is stored as the open "question"; the answer "A" then
normalizes to a valid letter while a question is open, yet
`data["correct_answer"]` raises before any score mutation: no record is
created and total does not increase — refuting the claim as stated. -/
theorem C4_counterexample :
    alist_get stX.sessions 7 = some (Json.str strayContent)
    ∧ pyUpper (pyStrip (txt "A")) ∈ lettersABCD
    ∧ stX.scores = []
    ∧ answerStep stX 7 (txt "A") = ⟨stX, [], false⟩ :=
  ⟨rfl, by decide, rfl, rfl⟩

/-! ### Claim C1 -/

/-- A response that parses and has all four keys, but whose choices and
correct_answer fail the full shape validation claimed by the spec. -/
def c1text : Chars :=
  txt "\x7b\"question\": \"q\", \"choices\": \x7b\"X\": \"1\"\x7d, \"correct_answer\": \"Z\", \"explanation\": \"e\"\x7d"

/-- C1 counterexample: the code's only validation is presence of the four
keys; this response fails the claimed full shape validation (choices is not
A-D, correct_answer is "Z") yet generate_problem returns the parsed item,
not the fallback (the fallback itself is fully well-formed, the returned
item is not). -/
theorem C1_counterexample :
    generate_problem (GenResponse.returns c1text) =
      Json.obj [(qKey, Json.str (txt "q")),
                (cKey, Json.obj [(txt "X", Json.str (txt "1"))]),
                (caKey, Json.str (txt "Z")),
                (exKey, Json.str (txt "e"))]
    ∧ specFullShapeValid (generate_problem (GenResponse.returns c1text)) = false
    ∧ specFullShapeValid fallbackJson = true :=
  ⟨rfl, rfl, rfl⟩

/-- C1 (corrected, amended): generate_problem returns the parsed item only
if parsing succeeded and the four required keys pass Python's containment
test — every result is either the fallback or such a parsed value.  The
choices labels and correct_answer are never validated, so the result need
not be a fully well-formed QuizItem. -/
theorem C1_amended : ∀ r : GenResponse,
    generate_problem r = fallbackJson ∨
    (∃ t, r = GenResponse.returns t ∧
      json_loads (cleanText t) = some (generate_problem r) ∧
      allKeysIn requiredKeys (generate_problem r) = some true) := by
  intro r
  cases r with
  | raises => exact Or.inl rfl
  | returns t =>
    cases h : json_loads (cleanText t) with
    | none =>
      left
      simp only [generate_problem]
      rw [h]
    | some j =>
      cases h2 : allKeysIn requiredKeys j with
      | none =>
        left
        simp only [generate_problem]
        rw [h]
        show checkKeys j = _
        simp only [checkKeys]
        rw [h2]
      | some b =>
        cases b with
        | false =>
          left
          simp only [generate_problem]
          rw [h]
          show checkKeys j = _
          simp only [checkKeys]
          rw [h2]
        | true =>
          have hg : generate_problem (GenResponse.returns t) = j := by
            simp only [generate_problem]
            rw [h]
            show checkKeys j = _
            simp only [checkKeys]
            rw [h2]
          exact Or.inr ⟨t, rfl, by rw [hg]; exact h, by rw [hg]; exact h2⟩

/-! ### Claim C10 -/

/-- C10 (confirmed): grading compares the normalized answer with the stored
correct_answer verbatim; if the stored value is not one of the upper-case
letters A-D, every graded answer — the matching letter included — is graded
incorrect: the comparison is false and the score update is
(correct + 0, total + 1). -/
theorem C10_verbatim_comparison (st : BotState) (uid : Nat) (text : Chars) (data : Json)
    (ca : Chars)
    (h1 : alist_get st.sessions uid = some data)
    (h2 : jGetItem data caKey = some (Json.str ca))
    (h3 : ca ∉ lettersABCD)
    (h4 : pyUpper (pyStrip text) ∈ lettersABCD) :
    jsonEqChars (Json.str ca) (pyUpper (pyStrip text)) = false
    ∧ (answerStep st uid text).state.scores =
        alist_put st.scores uid ⟨(scoreOrZero st uid).correct, (scoreOrZero st uid).total + 1⟩ := by
  have hne : ca ≠ pyUpper (pyStrip text) := fun he => h3 (he ▸ h4)
  have heq : jsonEqChars (Json.str ca) (pyUpper (pyStrip text)) = false := by
    simp only [jsonEqChars, beq_eq_false_iff_ne, ne_eq]
    exact hne
  refine ⟨heq, ?_⟩
  simp only [answerStep, h1]
  rw [if_pos h4]
  simp only [h2]
  unfold gradeAnswer
  split
  · simp [heq]
  · simp [heq]

/-- A stored item whose correct_answer is the lower-case "b". -/
def itemLowB : Json :=
  Json.obj [(qKey, Json.str (txt "Q")),
            (cKey, Json.obj [(txt "A", Json.str (txt "1")), (txt "B", Json.str (txt "2")),
                             (txt "C", Json.str (txt "3")), (txt "D", Json.str (txt "4"))]),
            (caKey, Json.str (txt "b")),
            (exKey, Json.str (txt "e"))]

def stB : BotState := ⟨[(9, itemLowB)], []⟩

/-- C10 witness: with correct_answer "b" stored, even submitting "b" (which
normalizes to "B") is graded incorrect: total becomes 1, correct stays 0. -/
theorem C10_witness :
    alist_get stB.sessions 9 = some itemLowB
    ∧ jGetItem itemLowB caKey = some (Json.str (txt "b"))
    ∧ txt "b" ∉ lettersABCD
    ∧ pyUpper (pyStrip (txt "b")) ∈ lettersABCD
    ∧ (jsonEqChars (Json.str (txt "b")) (pyUpper (pyStrip (txt "b"))) = false
       ∧ (answerStep stB 9 (txt "b")).state.scores =
           alist_put stB.scores 9 ⟨(scoreOrZero stB 9).correct, (scoreOrZero stB 9).total + 1⟩) :=
  ⟨rfl, rfl, by decide, by decide,
   C10_verbatim_comparison stB 9 (txt "b") itemLowB (txt "b") rfl rfl (by decide) (by decide)⟩

/-! ### Claim C6 -/

/-- A generated item whose choices arrive in insertion order B, A, C, D — a
fully well-formed QuizItem by the spec's data model (labels are exactly the
set A-D, each once; insertion order is preserved for display). -/
def c6text : Chars :=
  txt "\x7b\"question\": \"Q?\", \"choices\": \x7b\"B\": \"bb\", \"A\": \"aa\", \"C\": \"cc\", \"D\": \"dd\"\x7d, \"correct_answer\": \"A\", \"explanation\": \"e\"\x7d"

def c6item : Json :=
  Json.obj [(qKey, Json.str (txt "Q?")),
            (cKey, Json.obj [(txt "B", Json.str (txt "bb")), (txt "A", Json.str (txt "aa")),
                             (txt "C", Json.str (txt "cc")), (txt "D", Json.str (txt "dd"))]),
            (caKey, Json.str (txt "A")),
            (exKey, Json.str (txt "e"))]

/-- C6 counterexample: the reply lists choices in the mapping's insertion
order, not in label order A, B, C, D: a reachable, fully well-formed item
with insertion order B, A, C, D formats as "B) ... A) ..." which differs
from the layout the claim demands. -/
theorem C6_counterexample :
    generate_problem (GenResponse.returns c6text) = c6item
    ∧ specFullShapeValid c6item = true
    ∧ formatQuestion c6item =
        some (txt "Q?\n\nB) bb\nA) aa\nC) cc\nD) dd\n\n📝 Reply with A, B, C, or D.")
    ∧ txt "Q?\n\nB) bb\nA) aa\nC) cc\nD) dd\n\n📝 Reply with A, B, C, or D."
        ≠ txt "Q?\n\nA) aa\nB) bb\nC) cc\nD) dd\n\n📝 Reply with A, B, C, or D." :=
  ⟨rfl, rfl, rfl, by decide⟩

theorem choiceLines_strs (cs : List (Chars × Chars)) :
    choiceLines (cs.map (fun p => (p.1, Json.str p.2))) =
      (cs.map (fun p => p.1 ++ txt ") " ++ p.2 ++ txt "\n")).flatten := by
  induction cs with
  | nil => rfl
  | cons p r ih => simp [choiceLines, pyStr, ih, List.append_assoc]

/-- C6 (corrected, amended): the question reply is the question text, a
blank line, then one line per choice in the form "label) text" following the
choices mapping's insertion order (which is A, B, C, D exactly when the item
was built in that order, as the fallback is), then the instruction line
telling the user to reply with a single letter. -/
theorem C6_amended (q : Chars) (cs : List (Chars × Chars)) :
    formatQuestion
      (Json.obj [(qKey, Json.str q),
                 (cKey, Json.obj (cs.map (fun p => (p.1, Json.str p.2))))])
    = some (q ++ txt "\n\n"
        ++ (cs.map (fun p => p.1 ++ txt ") " ++ p.2 ++ txt "\n")).flatten
        ++ txt "\n📝 Reply with A, B, C, or D.") := by
  have h1 : alist_get
      [(qKey, Json.str q), (cKey, Json.obj (cs.map (fun p => (p.1, Json.str p.2))))] qKey
      = some (Json.str q) := by
    simp [alist_get]
  have h2 : alist_get
      [(qKey, Json.str q), (cKey, Json.obj (cs.map (fun p => (p.1, Json.str p.2))))] cKey
      = some (Json.obj (cs.map (fun p => (p.1, Json.str p.2)))) := by
    simp [alist_get, show ¬ qKey = cKey by decide]
  simp only [formatQuestion, h1, h2, pyStr, choiceLines_strs]

/-! ### Claim C7: lemmas about stripping and fence removal -/

theorem my_dropWhile_idem (f : Char → Bool) (l : Chars) :
    List.dropWhile f (List.dropWhile f l) = List.dropWhile f l := by
  induction l with
  | nil => rfl
  | cons a r ih =>
    by_cases h : f a
    · simp [List.dropWhile_cons_of_pos, h, ih]
    · simp [List.dropWhile_cons_of_neg, h]

theorem mem_of_mem_dropWhile (f : Char → Bool) (l : Chars) (x : Char)
    (h : x ∈ List.dropWhile f l) : x ∈ l := by
  induction l with
  | nil => simp at h
  | cons a r ih =>
    by_cases ha : f a
    · rw [List.dropWhile_cons_of_pos ha] at h
      exact List.mem_cons_of_mem a (ih h)
    · rwa [List.dropWhile_cons_of_neg ha] at h

theorem mem_of_mem_pyStrip (s : Chars) (x : Char) (h : x ∈ pyStrip s) : x ∈ s := by
  unfold pyStrip at h
  rw [List.mem_reverse] at h
  have h2 := mem_of_mem_dropWhile pyWS _ x h
  rw [List.mem_reverse] at h2
  exact mem_of_mem_dropWhile pyWS _ x h2

theorem pyStrip_cons_ws (c : Char) (l : Chars) (h : pyWS c = true) :
    pyStrip (c :: l) = pyStrip l := by
  unfold pyStrip
  rw [List.dropWhile_cons_of_pos h]

theorem pyStrip_append_ws (l : Chars) (e : Char) (h : pyWS e = true) :
    pyStrip (l ++ [e]) = pyStrip l := by
  unfold pyStrip
  rw [List.dropWhile_append]
  by_cases hd : (List.dropWhile pyWS l).isEmpty
  · rw [if_pos hd]
    rw [List.isEmpty_iff] at hd
    rw [hd]
    simp [h]
  · rw [if_neg hd]
    simp [List.reverse_append, List.dropWhile_cons_of_pos h]

theorem pyStrip_sandwich (c e : Char) (m : Chars) (hc : pyWS c = false) (he : pyWS e = false) :
    pyStrip (c :: (m ++ [e])) = c :: (m ++ [e]) := by
  unfold pyStrip
  rw [List.dropWhile_cons_of_neg (by simp [hc])]
  rw [show (c :: (m ++ [e])).reverse = e :: (m.reverse ++ [c]) by simp]
  rw [List.dropWhile_cons_of_neg (by simp [he])]
  simp

theorem pyStrip_idem (s : Chars) : pyStrip (pyStrip s) = pyStrip s := by
  cases ha : List.dropWhile pyWS s with
  | nil =>
    have h1 : pyStrip s = [] := by simp [pyStrip, ha]
    rw [h1]
    rfl
  | cons c r =>
    have hc : pyWS c = false := by
      have h := List.head?_dropWhile_not pyWS s
      rw [ha] at h
      simpa using h
    have hs : pyStrip s = ((c :: r).reverse.dropWhile pyWS).reverse := by
      simp [pyStrip, ha]
    rw [show (c :: r).reverse = r.reverse ++ [c] by simp] at hs
    rw [List.dropWhile_append] at hs
    by_cases hb : (List.dropWhile pyWS r.reverse).isEmpty
    · rw [if_pos hb] at hs
      rw [show List.dropWhile pyWS [c] = [c] from List.dropWhile_cons_of_neg (by simp [hc])] at hs
      simp only [List.reverse_cons, List.reverse_nil, List.nil_append] at hs
      rw [hs]
      unfold pyStrip
      rw [show List.dropWhile pyWS [c] = [c] from List.dropWhile_cons_of_neg (by simp [hc])]
      simp only [List.reverse_cons, List.reverse_nil, List.nil_append]
      rw [show List.dropWhile pyWS [c] = [c] from List.dropWhile_cons_of_neg (by simp [hc])]
      rfl
    · rw [if_neg hb] at hs
      rw [show (List.dropWhile pyWS r.reverse ++ [c]).reverse =
            c :: (List.dropWhile pyWS r.reverse).reverse by simp] at hs
      rw [hs]
      unfold pyStrip
      rw [List.dropWhile_cons_of_neg (by simp [hc])]
      rw [show (c :: (List.dropWhile pyWS r.reverse).reverse).reverse =
            (List.dropWhile pyWS r.reverse).reverse.reverse ++ [c] by simp]
      rw [List.reverse_reverse]
      rw [List.dropWhile_append]
      rw [my_dropWhile_idem]
      rw [if_neg hb]
      simp

theorem repAux_append_nomatch (pat l r : Chars)
    (h : ∀ (c : Char) (cs : Chars), c ∈ l → startsWithL pat (c :: cs) = false) :
    repAux pat (l ++ r) 0 = l ++ repAux pat r 0 := by
  induction l with
  | nil => rfl
  | cons c l ih =>
    rw [List.cons_append]
    have hc := h c (l ++ r) (List.mem_cons_self c l)
    simp only [repAux, hc, Bool.false_eq_true, if_false]
    rw [ih (fun x cs hx => h x cs (List.mem_cons_of_mem c hx))]
    rfl

theorem startsWith_bq_false (pat : Chars) (c : Char) (cs : Chars)
    (hpat : pat.head? = some backquoteChar) (hc : c ≠ backquoteChar) :
    startsWithL pat (c :: cs) = false := by
  cases pat with
  | nil => simp at hpat
  | cons p ps =>
    have hp : p = backquoteChar := by simpa using hpat
    subst hp
    have hbc : (backquoteChar == c) = false := beq_eq_false_iff_ne.mpr (fun he => hc he.symm)
    simp [startsWithL, hbc]

theorem repAux_append_nobq (pat l r : Chars) (hpat : pat.head? = some backquoteChar)
    (h : backquoteChar ∉ l) :
    repAux pat (l ++ r) 0 = l ++ repAux pat r 0 :=
  repAux_append_nomatch pat l r
    (fun c cs hc => startsWith_bq_false pat c cs hpat (fun he => h (he ▸ hc)))

theorem repAux_nobq_id (pat l : Chars) (hpat : pat.head? = some backquoteChar)
    (h : backquoteChar ∉ l) : repAux pat l 0 = l := by
  have h2 := repAux_append_nobq pat l [] hpat h
  simpa [repAux] using h2

/-- The two fence wrappings of the claim. -/
def fenceJson (p : Chars) : Chars := txt "```json\n" ++ p ++ txt "\n```"

def fenceBare (p : Chars) : Chars := txt "```\n" ++ p ++ txt "\n```"

theorem pyStrip_fenceJson (p : Chars) : pyStrip (fenceJson p) = fenceJson p := by
  have hshape : fenceJson p =
      backquoteChar :: ((txt "``json\n" ++ p ++ txt "\n``") ++ [backquoteChar]) := by
    simp [fenceJson, txt, backquoteChar, List.append_assoc]
  rw [hshape, pyStrip_sandwich _ _ _ (by decide) (by decide)]

theorem pyStrip_fenceBare (p : Chars) : pyStrip (fenceBare p) = fenceBare p := by
  have hshape : fenceBare p =
      backquoteChar :: ((txt "``\n" ++ p ++ txt "\n``") ++ [backquoteChar]) := by
    simp [fenceBare, txt, backquoteChar, List.append_assoc]
  rw [hshape, pyStrip_sandwich _ _ _ (by decide) (by decide)]

theorem cleanText_nobq (p : Chars) (hp : backquoteChar ∉ p) : cleanText p = pyStrip p := by
  have hps : backquoteChar ∉ pyStrip p := fun h => hp (mem_of_mem_pyStrip p _ h)
  unfold cleanText pyReplaceDel
  rw [repAux_nobq_id (txt "```json") _ rfl hps, repAux_nobq_id (txt "```") _ rfl hps,
      pyStrip_idem]

theorem cleanText_fenceJson (p : Chars) (hp : backquoteChar ∉ p) :
    cleanText (fenceJson p) = pyStrip p := by
  unfold cleanText pyReplaceDel
  rw [pyStrip_fenceJson]
  have h1 : repAux (txt "```json") (fenceJson p) 0 =
      '\n' :: repAux (txt "```json") (p ++ txt "\n```") 0 := rfl
  rw [h1, repAux_append_nobq (txt "```json") p (txt "\n```") rfl hp]
  have h2 : repAux (txt "```json") (txt "\n```") 0 = txt "\n```" := rfl
  rw [h2]
  have h3 : repAux (txt "```") ('\n' :: (p ++ txt "\n```")) 0 =
      '\n' :: repAux (txt "```") (p ++ txt "\n```") 0 := rfl
  rw [h3, repAux_append_nobq (txt "```") p (txt "\n```") rfl hp]
  have h4 : repAux (txt "```") (txt "\n```") 0 = ['\n'] := rfl
  rw [h4]
  rw [pyStrip_cons_ws _ _ (by decide), pyStrip_append_ws _ _ (by decide)]

theorem cleanText_fenceBare (p : Chars) (hp : backquoteChar ∉ p) :
    cleanText (fenceBare p) = pyStrip p := by
  unfold cleanText pyReplaceDel
  rw [pyStrip_fenceBare]
  have h1 : repAux (txt "```json") (fenceBare p) 0 =
      '`' :: '`' :: '`' :: '\n' :: repAux (txt "```json") (p ++ txt "\n```") 0 := rfl
  rw [h1, repAux_append_nobq (txt "```json") p (txt "\n```") rfl hp]
  have h2 : repAux (txt "```json") (txt "\n```") 0 = txt "\n```" := rfl
  rw [h2]
  have h3 : repAux (txt "```") ('`' :: '`' :: '`' :: '\n' :: (p ++ txt "\n```")) 0 =
      '\n' :: repAux (txt "```") (p ++ txt "\n```") 0 := rfl
  rw [h3, repAux_append_nobq (txt "```") p (txt "\n```") rfl hp]
  have h4 : repAux (txt "```") (txt "\n```") 0 = ['\n'] := rfl
  rw [h4]
  rw [pyStrip_cons_ws _ _ (by decide), pyStrip_append_ws _ _ (by decide)]

/-- C7 (corrected, amended): the cleaning step removes every occurrence of
"```json" and then of "```" and trims, so a payload wrapped in bare fences
or in fences tagged exactly "json" is cleaned to the trimmed payload and
generate_problem treats the wrapped and unwrapped responses identically;
fences carrying any other language tag leave the tag text in place (see the
counterexample, where parsing then fails and the fallback is returned). -/
theorem C7_amended (p : Chars) (hp : backquoteChar ∉ p) :
    cleanText (fenceJson p) = pyStrip p
    ∧ cleanText (fenceBare p) = pyStrip p
    ∧ generate_problem (GenResponse.returns (fenceJson p)) =
        generate_problem (GenResponse.returns p)
    ∧ generate_problem (GenResponse.returns (fenceBare p)) =
        generate_problem (GenResponse.returns p) := by
  have h1 := cleanText_fenceJson p hp
  have h2 := cleanText_fenceBare p hp
  have h0 := cleanText_nobq p hp
  refine ⟨h1, h2, ?_, ?_⟩
  · simp only [generate_problem, h1, h0]
  · simp only [generate_problem, h2, h0]

/-- A fully valid JSON item (no backquotes, already trimmed). -/
def c7good : Chars :=
  txt "\x7b\"question\": \"q\", \"choices\": \x7b\"A\": \"1\", \"B\": \"2\", \"C\": \"3\", \"D\": \"4\"\x7d, \"correct_answer\": \"B\", \"explanation\": \"e\"\x7d"

/-- The same payload wrapped in a code fence with the language tag
"javascript". -/
def c7fenced : Chars := txt "```javascript\n" ++ c7good ++ txt "\n```"

def c7goodJson : Json :=
  Json.obj [(qKey, Json.str (txt "q")),
            (cKey, Json.obj [(txt "A", Json.str (txt "1")), (txt "B", Json.str (txt "2")),
                             (txt "C", Json.str (txt "3")), (txt "D", Json.str (txt "4"))]),
            (caKey, Json.str (txt "B")),
            (exKey, Json.str (txt "e"))]

/-- C7 counterexample: a valid JSON payload wrapped in a triple-backtick
fence with the language tag "javascript" — the unwrapped payload parses to a
fully well-formed item and is returned, but the wrapped response is cleaned
to "javascript\n…", fails to parse, and yields the fallback instead of the
parsed item, refuting "with or without a language tag … for every valid JSON
payload wrapped in such fences (with any language tag), parsing succeeds and
the parsed item, not the fallback, is returned". -/
theorem C7_counterexample :
    generate_problem (GenResponse.returns c7good) = c7goodJson
    ∧ specFullShapeValid c7goodJson = true
    ∧ json_loads (cleanText c7fenced) = none
    ∧ generate_problem (GenResponse.returns c7fenced) = fallbackJson
    ∧ specFullShapeValid fallbackJson = true
    ∧ c7goodJson ≠ fallbackJson :=
  ⟨rfl, rfl, rfl, rfl, rfl, fun h => by
    have h2 : specFullShapeValid c7goodJson = specFullShapeValid fallbackJson := by rw [h]
    have h3 : jGetItem c7goodJson qKey = jGetItem fallbackJson qKey := by rw [h]
    simp [jGetItem, c7goodJson, fallbackJson, alist_get, qKey] at h3
    exact absurd (h3) (by decide)⟩

/-- C7 witness: the canonical payload contains no backquote, and wrapping it
in a json-tagged or bare fence does not change the generation result. -/
theorem C7_witness :
    backquoteChar ∉ c7good
    ∧ (cleanText (fenceJson c7good) = pyStrip c7good
       ∧ cleanText (fenceBare c7good) = pyStrip c7good
       ∧ generate_problem (GenResponse.returns (fenceJson c7good)) =
           generate_problem (GenResponse.returns c7good)
       ∧ generate_problem (GenResponse.returns (fenceBare c7good)) =
           generate_problem (GenResponse.returns c7good)) :=
  ⟨by decide, C7_amended c7good (by decide)⟩

end PlurBot
